import Mathlib

/-!
Verification of the bulk CSV product-import pipeline of the repository
(src/app/tasks.py with the table declarations of src/app/models.py and the
progress-streaming handler of src/app/main.py).

Modelling conventions:
* A raw CSV cell is an `Option String`; `none` models a value pandas parses as
  NaN (missing).  A stored SQL value is likewise an `Option String`; `none`
  models SQL NULL.  Numeric cells (price) are carried as their textual form.
* Timestamps are abstract instants (`Nat`); `NOW()` is a parameter of each run.
* A source file is modelled as a header (list of column names) plus a list of
  data records, one record per physical line, so that the line count equals
  1 + number of records for a non-empty file.  A zero-byte file is the case
  `columns = []` (pandas raises EmptyDataError for it).  Records carry the four
  columns the importer recognizes (tasks.py line 86); the `columns` field
  drives the header checks at tasks.py lines 63 and 87.
* Python real division followed by `int(...)` truncation (tasks.py line 112)
  is modelled by exact integer division; IEEE-754 rounding of the intermediate
  float is abstracted away.  `str.upper`/`str.strip` are modelled by
  `String.toUpper`/`String.trim` (ASCII-faithful).
-/

namespace ProductImporter

/-- A raw CSV cell as parsed by pandas: `none` models a missing value (NaN). -/
abbrev Cell := Option String

/-- A value as stored by PostgreSQL: `none` models SQL NULL. -/
abbrev SqlValue := Option String

/-- One raw CSV data record, restricted to the columns the importer recognizes
(tasks.py line 86: sku, name, description, price). -/
structure RawRow where
  sku : Cell
  name : Cell
  description : Cell
  price : Cell
deriving DecidableEq

/-- A record after `chunk.fillna('')` (tasks.py line 60): every field is a
plain string, missing values having been replaced by the empty string. -/
structure FilledRow where
  sku : String
  name : String
  description : String
  price : String
deriving DecidableEq

/-- `fillna('')` on one cell (tasks.py line 60): NaN becomes the empty string,
present values are unchanged. -/
def fillCell (c : Cell) : String := c.getD ""

/-- `chunk.fillna('')` on one record (tasks.py line 60). -/
def fillRow (r : RawRow) : FilledRow :=
  { sku := fillCell r.sku, name := fillCell r.name,
    description := fillCell r.description, price := fillCell r.price }

/-- `str.upper` (tasks.py line 64), modelled character-wise (ASCII). -/
def strUpper (s : String) : String := String.mk (s.data.map Char.toUpper)

/-- `str.strip` (tasks.py line 64): remove leading and trailing whitespace,
modelled character-wise. -/
def strTrim (s : String) : String :=
  String.mk (((s.data.dropWhile Char.isWhitespace).reverse.dropWhile
    Char.isWhitespace).reverse)

/-- SKU canonicalization (tasks.py line 64):
`chunk['sku'].astype(str).str.upper().str.strip()` — upper-case, then strip
leading and trailing whitespace. -/
def normalizeSku (s : String) : String := strTrim (strUpper s)

/-- Per-record normalization (tasks.py lines 60-64): `fillna` always runs; the
SKU canonicalization runs only when the file has a `sku` column. -/
def normalizeRow (hasSku : Bool) (r : RawRow) : FilledRow :=
  let f := fillRow r
  if hasSku then { f with sku := normalizeSku f.sku } else f

/-- `chunk.drop_duplicates(subset=['sku'], keep='last')` (tasks.py line 67):
a record is retained exactly when no later record of the chunk has the same
sku; the retained records keep their original order. -/
def dropDupKeepLast : List FilledRow → List FilledRow
  | [] => []
  | r :: rs =>
    if ∃ r2 ∈ rs, r2.sku = r.sku then dropDupKeepLast rs
    else r :: dropDupKeepLast rs

/-- A record as it lands in the staging table `temp_products`: the chunk is
serialized with `to_csv(..., sep='\t')` and loaded with
`copy_from(..., null='')` (tasks.py lines 89-93), so an empty string is
written as an empty field, which COPY reads back as SQL NULL. -/
structure StagedRow where
  sku : SqlValue
  name : SqlValue
  description : SqlValue
  price : SqlValue
deriving DecidableEq

/-- Staging of one field: `to_csv` writes the string, `copy_from` with
`null=''` maps the empty field to SQL NULL (tasks.py lines 89-93). -/
def stageCell (s : String) : SqlValue := if s = "" then none else some s

/-- Staging of one record into `temp_products` (tasks.py lines 84-93). -/
def stageRow (r : FilledRow) : StagedRow :=
  { sku := stageCell r.sku, name := stageCell r.name,
    description := stageCell r.description, price := stageCell r.price }

/-- One row of the `products` table (src/app/models.py lines 8-20).  `sku`
and `name` are plain strings because both columns are declared
`nullable=False` (models.py lines 9-10); `description` and `price` are
nullable. -/
structure Product where
  sku : String
  name : String
  description : SqlValue
  price : SqlValue
  is_active : Bool
  created_at : Nat
  updated_at : Option Nat
deriving DecidableEq

/-- The merge of one staged record into `products` (tasks.py lines 96-106):
`INSERT ... SELECT sku, name, description, price, TRUE, NOW() ...
ON CONFLICT (sku) DO UPDATE SET name, description, price, updated_at`.
The table carries an exact unique constraint on `sku` (models.py line 9) —
the arbiter of `ON CONFLICT (sku)` — and the case-insensitive unique index
`idx_sku_upper` on `upper(sku)` (models.py lines 18-20), which rejects an
insert whose sku collides only case-insensitively.  A NULL sku or a NULL
name violates the NOT NULL constraint of its column (models.py lines 9-10):
the inserted tuple is checked before the unique indexes, and a DO UPDATE
that would write NULL into name fails the same check, so either NULL aborts
the merge on both paths; the checks are hoisted here in column order. -/
def upsertRow (now : Nat) (table : List Product) (r : StagedRow) :
    Except String (List Product) :=
  match r.sku with
  | none => .error "NotNullViolation: null value in column sku"
  | some k =>
    match r.name with
    | none => .error "NotNullViolation: null value in column name"
    | some nm =>
      if ∃ p ∈ table, p.sku = k then
        .ok (table.map (fun p =>
          if p.sku = k then
            { p with name := nm, description := r.description,
                     price := r.price, updated_at := some now }
          else p))
      else if ∃ p ∈ table, strUpper p.sku = strUpper k then
        .error "UniqueViolation: duplicate key value violates unique index idx_sku_upper"
      else
        .ok (table ++ [{ sku := k, name := nm, description := r.description,
                         price := r.price, is_active := true, created_at := now,
                         updated_at := none }])

/-- The set-based merge of a whole staged batch (tasks.py lines 96-106): each
staged record is either inserted or updates its conflict partner; the first
constraint violation aborts the statement. -/
def upsertBatch (now : Nat) : List Product → List StagedRow →
    Except String (List Product)
  | table, [] => .ok table
  | table, r :: rs =>
    match upsertRow now table r with
    | .error e => .error e
    | .ok t2 => upsertBatch now t2 rs

/-- Chunking helper, structurally recursive on a fuel that bounds the number
of chunks still to produce (each chunk consumes at least one record). -/
def chunksOfAux (n : Nat) : Nat → List α → List (List α)
  | _, [] => []
  | 0, _ :: _ => []
  | fuel + 1, a :: l => (a :: l.take (n - 1)) :: chunksOfAux n fuel (l.drop (n - 1))

/-- `pd.read_csv(file_path, chunksize=chunk_size)` (tasks.py line 56): the
records split into consecutive chunks of at most `n` records; only non-empty
chunks are produced. -/
def chunksOf (n : Nat) (l : List α) : List (List α) := chunksOfAux n l.length l

/-- `chunk_size = 10000` (tasks.py line 48). -/
def chunkSize : Nat := 10000

/-- A status snapshot published through `self.update_state` (tasks.py lines
115-123 and 152-155).  The PROGRESS meta carries current, total, percent and
a status string; the FAILURE meta carries only an error and a status string. -/
inductive Snapshot where
  | progress (current : Nat) (total : Int) (percent : Int) (status : String)
  | failure (error : String) (status : String)
deriving DecidableEq

/-- `min(int((processed / total_rows) * 100), 100)` (tasks.py line 112),
with Python real division and `int` truncation modelled by exact integer
division; a zero denominator raises. -/
def computePercent (processed : Nat) (total : Int) : Except String Int :=
  if total = 0 then .error "ZeroDivisionError: division by zero"
  else .ok (min ((processed * 100 : Int) / total) 100)

/-- The mutable state of one run of the chunk loop (tasks.py lines 49-51 and
the published snapshots accumulated so far). -/
structure RunState where
  processed : Nat
  inserted : Nat
  table : List Product
  snapshots : List Snapshot
deriving DecidableEq

/-- The result dict of a successful run (tasks.py lines 140-145). -/
structure ImportResult where
  status : String
  total_processed : Nat
  total_inserted : Nat
  message : String
deriving DecidableEq

/-- `columns_to_import` (tasks.py line 86): the columns selected for the
staging buffer when they are all present in the header. -/
def colsFull : List String := ["sku", "name", "description", "price"]

/-- The body of the chunk loop for one chunk (tasks.py lines 56-123):
fillna and conditional SKU normalization (60-64), the duplicate drop — which
raises KeyError when the file has no `sku` column (67) — the staged COPY and
merge inside one transaction (71-109), then counter advance, percent
computation and the PROGRESS publication (111-123).  When the header lacks
one of the recognized columns, line 87 keeps the original columns and the
buffer no longer matches the four-column staging table, so `copy_from`
aborts the transaction (the sub-case of a header with exactly four columns,
where COPY would misalign the data and fail on the NUMERIC price column, is
modelled by the same abort).  An error carries the table visible after it:
the pre-chunk table for a COPY or merge error (the transaction rolls back),
the committed table for an error raised after the commit. -/
def processChunk (now : Nat) (columns : List String) (total : Int)
    (st : RunState) (chunk : List RawRow) :
    Except (String × List Product) RunState :=
  if "sku" ∈ columns then
    let deduped := dropDupKeepLast (chunk.map (normalizeRow true))
    if ∀ c ∈ colsFull, c ∈ columns then
      let staged := deduped.map stageRow
      match upsertBatch now st.table staged with
      | .error e => .error (e, st.table)
      | .ok t2 =>
        let processed2 := st.processed + deduped.length
        match computePercent processed2 total with
        | .error e => .error (e, t2)
        | .ok pct =>
          .ok { processed := processed2,
                inserted := st.inserted + staged.length,
                table := t2,
                snapshots := st.snapshots ++
                  [Snapshot.progress processed2 total pct
                    ("Processing... " ++ toString processed2 ++ "/" ++
                      toString total ++ " rows")] }
    else
      .error ("BadCopyFileFormat: row field count does not match column count",
        st.table)
  else
    .error ("KeyError: sku", st.table)

/-- The chunk loop (tasks.py lines 56-125): chunks are processed strictly in
file order; the first exception aborts the remaining file, leaving the state
reached so far (previously committed batches stay committed). -/
def runChunks (now : Nat) (columns : List String) (total : Int) :
    RunState → List (List RawRow) → RunState × Option String
  | st, [] => (st, none)
  | st, c :: cs =>
    match processChunk now columns total st c with
    | .error (e, tbl) => ({ st with table := tbl }, some e)
    | .ok st2 => runChunks now columns total st2 cs

/-- The source file as the task observes it.  `present` is the
`os.path.exists` outcome (tasks.py line 40); `columns` is the header row
(empty for a zero-byte file, for which pandas raises EmptyDataError);
`records` are the data rows, one per physical line. -/
structure CsvFile where
  present : Bool
  columns : List String
  records : List RawRow
deriving DecidableEq

/-- `sum(1 for _ in open(file_path))` (tasks.py line 44): one line for the
header plus one line per record; a zero-byte file has no lines. -/
def lineCount (f : CsvFile) : Nat :=
  if f.columns.isEmpty then 0 else 1 + f.records.length

/-- `total_rows = <line count> - 1` (tasks.py line 44). -/
def totalRows (f : CsvFile) : Int := (lineCount f : Int) - 1

deriving instance DecidableEq for Except

/-- Everything one run of the task leaves behind: the snapshots published in
order, the webhook events enqueued (event type, total_processed,
total_inserted), the returned result or raised error, the final state of the
products table, and whether the source file was removed. -/
structure RunOutcome where
  snapshots : List Snapshot
  webhookEvents : List (String × Nat × Nat)
  result : Except String ImportResult
  table : List Product
  fileRemoved : Bool
deriving DecidableEq

/-- The import task `import_products_task` (tasks.py lines 31-156), run at
abstract instant `now` on file `f` against initial table `table0`:
existence check (40-41), line count (44), chunked processing (56-125),
source-file cleanup and webhook enqueue on success (127-148), and the
FAILURE publication plus re-raise on any exception (150-156). -/
def import_products_task (now : Nat) (f : CsvFile) (table0 : List Product) :
    RunOutcome :=
  if f.present = false then
    { snapshots := [Snapshot.failure "File not found" "Import failed"],
      webhookEvents := [], result := .error "File not found",
      table := table0, fileRemoved := false }
  else if f.columns.isEmpty then
    { snapshots := [Snapshot.failure
        "EmptyDataError: No columns to parse from file" "Import failed"],
      webhookEvents := [], result :=
        .error "EmptyDataError: No columns to parse from file",
      table := table0, fileRemoved := false }
  else
    let total := totalRows f
    let st0 : RunState :=
      { processed := 0, inserted := 0, table := table0, snapshots := [] }
    match runChunks now f.columns total st0 (chunksOf chunkSize f.records) with
    | (st, some e) =>
      { snapshots := st.snapshots ++ [Snapshot.failure e "Import failed"],
        webhookEvents := [], result := .error e,
        table := st.table, fileRemoved := false }
    | (st, none) =>
      { snapshots := st.snapshots,
        webhookEvents := [("product.bulk_import", st.processed, st.inserted)],
        result := .ok
          { status := "success", total_processed := st.processed,
            total_inserted := st.inserted,
            message := "Successfully imported " ++ toString st.processed ++
              " products" },
        table := st.table, fileRemoved := true }

/-- A row of the `webhooks` table (src/app/models.py lines 26-36). -/
structure Webhook where
  url : String
  event_type : String
  is_active : Bool
deriving DecidableEq

/-- The subscriber query of `trigger_webhooks_async` (tasks.py lines 166-177):
the endpoints given one delivery attempt for an event are exactly the active
subscriptions whose event type matches; each attempt is isolated, so the
attempt list does not depend on individual delivery outcomes. -/
def triggerWebhooks (subs : List Webhook) (event : String) : List String :=
  (subs.filter (fun w => w.event_type = event ∧ w.is_active = true)).map
    (fun w => w.url)

/-- All delivery attempts a run causes: one `triggerWebhooks` dispatch per
enqueued webhook event (tasks.py lines 135-138 and 159-177). -/
def notificationsSent (subs : List Webhook) (o : RunOutcome) : List String :=
  (o.webhookEvents.map (fun e => triggerWebhooks subs e.1)).flatten

/-- The percent fields of the PROGRESS snapshots of a snapshot list, in
publication order. -/
def snapshotPercents (l : List Snapshot) : List Int :=
  l.filterMap (fun s =>
    match s with
    | .progress _ _ p _ => some p
    | .failure _ _ => none)

/-- The percent fields of the PROGRESS snapshots of a run, in publication
order. -/
def progressPercents (o : RunOutcome) : List Int :=
  snapshotPercents o.snapshots

/-- The percent the progress-streaming handler attaches to the terminal event
(src/app/main.py lines 89-105): exactly 100 on SUCCESS; the FAILURE event
carries no percent. -/
def terminalPercent (o : RunOutcome) : Option Int :=
  match o.result with
  | .ok _ => some 100
  | .error _ => none

/-! Concrete fixtures used by witnesses and counterexamples. -/

/-- A one-record file whose description cell is missing (parsed as NaN). -/
def nullDescFile : CsvFile :=
  { present := true, columns := colsFull,
    records := [{ sku := some "a", name := some "N", description := none,
                  price := some "1" }] }

/-- A file holding only a header line: one line, zero data records. -/
def headerOnly : CsvFile :=
  { present := true, columns := ["sku", "name"], records := [] }

/-- A parseable file whose header lacks the sku column. -/
def noSkuFile : CsvFile :=
  { present := true, columns := ["name", "price"],
    records := [{ sku := none, name := some "N", description := none,
                  price := some "1" }] }

/-- A path for which `os.path.exists` is false. -/
def absentFile : CsvFile := { present := false, columns := [], records := [] }

/-- A zero-byte file: it exists but has no lines at all. -/
def emptyFile : CsvFile := { present := true, columns := [], records := [] }

/-- A products table holding one row whose stored SKU is lower-case — as the
CRUD layer creates it, since `crud.create_product` (src/app/crud.py lines
60-65) stores the submitted SKU verbatim. -/
def tblLower : List Product :=
  [{ sku := "abc-1", name := "old", description := none, price := none,
     is_active := true, created_at := 0, updated_at := none }]

/-- A one-record import whose SKU differs from the stored "abc-1" only by
case and surrounding whitespace. -/
def caseFile : CsvFile :=
  { present := true, columns := colsFull,
    records := [{ sku := some " abc-1 ", name := some "N",
                  description := some "D", price := some "1" }] }

/-- A three-record file in which the first and last record share a SKU. -/
def dupFile : CsvFile :=
  { present := true, columns := colsFull,
    records := [{ sku := some "x", name := some "n1", description := none,
                  price := some "1" },
                { sku := some "y", name := some "n2", description := none,
                  price := some "2" },
                { sku := some "x", name := some "n3", description := none,
                  price := some "3" }] }

/-- The record filling the whole first chunk of the two-chunk failing run. -/
def rawA : RawRow :=
  { sku := some "a", name := some "Name", description := some "D",
    price := some "1.00" }

/-- The second-chunk record whose canonical SKU collides case-insensitively
with the stored "abc-1" of `tblLower`. -/
def rawB : RawRow :=
  { sku := some "abc-1", name := some "N2", description := some "D2",
    price := some "2.00" }

/-- A 10001-record file: at chunk size 10000 it yields two chunks, the first
committing one merged row, the second failing on `idx_sku_upper`. -/
def bigFile : CsvFile :=
  { present := true, columns := colsFull,
    records := List.replicate 10000 rawA ++ [rawB] }

/-- An existing product row with non-default flags, for the merge frame
witness. -/
def tblFrame : List Product :=
  [{ sku := "A", name := "n0", description := some "d0",
     price := some "p0", is_active := false, created_at := 3,
     updated_at := some 4 }]

/-- A staged record colliding exactly with the row of `tblFrame`. -/
def rowHit : StagedRow :=
  { sku := some "A", name := some "n1", description := some "d1",
    price := some "p1" }

/-- A staged record colliding with nothing in `tblFrame`. -/
def rowFresh : StagedRow :=
  { sku := some "B", name := some "n2", description := none,
    price := some "p2" }

/-- One active subscription to the bulk-import event. -/
def subsActive : List Webhook :=
  [{ url := "http://example.com/hook", event_type := "product.bulk_import",
     is_active := true }]

/-- A products table whose stored SKU is already canonical (upper-cased,
trimmed), as every import-created row is. -/
def tblCanon : List Product :=
  [{ sku := "ABC-1", name := "old", description := none, price := none,
     is_active := true, created_at := 0, updated_at := none }]

/-- A raw record whose SKU matches the row of `tblCanon` up to case and
surrounding whitespace. -/
def raw5 : RawRow :=
  { sku := some " abc-1 ", name := some "N2", description := some "D2",
    price := some "2" }

/-- A raw record whose name, description and price cells are all missing. -/
def rawAllNull : RawRow :=
  { sku := some "a", name := none, description := none, price := none }

/-- A file whose header lacks the sku column and that has no data rows at
all: one header line, zero records. -/
def noSkuHeaderOnly : CsvFile :=
  { present := true, columns := ["name", "price"], records := [] }

/-! Helper lemmas. -/

theorem totalRows_of_columns (f : CsvFile) (h : f.columns.isEmpty = false) :
    totalRows f = (f.records.length : Int) := by
  simp only [totalRows, lineCount, h, Bool.false_eq_true, if_false]
  push_cast
  ring

theorem computePercent_coe (p n : Nat) (hn : 0 < n) :
    computePercent p (n : Int) =
      Except.ok ((min (p * 100 / n) 100 : Nat) : Int) := by
  have hne : (n : Int) ≠ 0 := by exact_mod_cast hn.ne'
  simp only [computePercent, hne, if_false]
  norm_cast

theorem pct_mono {n p q : Nat} (h : p ≤ q) :
    min (p * 100 / n) 100 ≤ min (q * 100 / n) 100 :=
  min_le_min (Nat.div_le_div_right (Nat.mul_le_mul_right 100 h)) le_rfl

theorem processChunk_ok (now : Nat) (cols : List String) (t : Int)
    (st : RunState) (chunk : List RawRow) (st2 : RunState)
    (h : processChunk now cols t st chunk = .ok st2) :
    ∃ pct, computePercent st2.processed t = Except.ok pct ∧
      st2.processed = st.processed +
        (dropDupKeepLast (chunk.map (normalizeRow true))).length ∧
      st2.snapshots = st.snapshots ++
        [Snapshot.progress st2.processed t pct
          ("Processing... " ++ toString st2.processed ++ "/" ++ toString t ++
            " rows")] := by
  unfold processChunk at h
  split at h
  case isTrue hsku =>
    dsimp only [] at h
    split at h
    case isTrue hcols =>
      split at h
      case h_1 => exact absurd h (by simp)
      case h_2 t2 heq =>
        split at h
        case h_1 => exact absurd h (by simp)
        case h_2 pct hpct =>
          injection h with h
          subst h
          exact ⟨pct, hpct, rfl, rfl⟩
    case isFalse => exact absurd h (by simp)
  case isFalse => exact absurd h (by simp)

theorem snapshotPercents_append (l1 l2 : List Snapshot) :
    snapshotPercents (l1 ++ l2) = snapshotPercents l1 ++ snapshotPercents l2 :=
  List.filterMap_append l1 l2 _

@[simp] theorem snapshotPercents_nil : snapshotPercents [] = [] := rfl

@[simp] theorem snapshotPercents_progress (c : Nat) (t p : Int) (m : String)
    (l : List Snapshot) :
    snapshotPercents (Snapshot.progress c t p m :: l) =
      p :: snapshotPercents l := rfl

@[simp] theorem snapshotPercents_failure (e s : String) (l : List Snapshot) :
    snapshotPercents (Snapshot.failure e s :: l) = snapshotPercents l := rfl

theorem runChunks_progress_mem (now : Nat) (cols : List String) (t : Int) :
    ∀ (chunks : List (List RawRow)) (st : RunState),
      (∀ c tt p m, Snapshot.progress c tt p m ∈ st.snapshots →
        tt = t ∧ computePercent c t = Except.ok p) →
      ∀ c tt p m, Snapshot.progress c tt p m ∈
          (runChunks now cols t st chunks).1.snapshots →
        tt = t ∧ computePercent c t = Except.ok p := by
  intro chunks
  induction chunks with
  | nil =>
    intro st hinv
    simpa [runChunks] using hinv
  | cons ch cs ih =>
    intro st hinv c tt p m hmem
    rw [runChunks] at hmem
    revert hmem
    split
    case h_1 e tbl heq =>
      intro hmem
      exact hinv c tt p m hmem
    case h_2 st2 heq =>
      intro hmem
      refine ih st2 ?_ c tt p m hmem
      intro c2 tt2 p2 m2 hmem2
      obtain ⟨pct, hpct, hproc, hsnap⟩ := processChunk_ok now cols t st ch st2 heq
      rw [hsnap] at hmem2
      rcases List.mem_append.1 hmem2 with h2 | h2
      · exact hinv c2 tt2 p2 m2 h2
      · simp only [List.mem_singleton, Snapshot.progress.injEq] at h2
        obtain ⟨hc, ht, hp, hm⟩ := h2
        subst hc
        subst hp
        exact ⟨ht, hpct⟩

theorem runChunks_percents_chain (now : Nat) (cols : List String) (n : Nat)
    (hn : 0 < n) :
    ∀ (chunks : List (List RawRow)) (st : RunState),
      List.Chain' (· ≤ ·) (snapshotPercents st.snapshots) →
      (∀ q ∈ snapshotPercents st.snapshots,
        q ≤ ((min (st.processed * 100 / n) 100 : Nat) : Int)) →
      List.Chain' (· ≤ ·)
        (snapshotPercents (runChunks now cols (n : Int) st chunks).1.snapshots) ∧
      ∀ q ∈ snapshotPercents (runChunks now cols (n : Int) st chunks).1.snapshots,
        q ≤ ((min ((runChunks now cols (n : Int) st chunks).1.processed * 100 / n)
              100 : Nat) : Int) := by
  intro chunks
  induction chunks with
  | nil =>
    intro st h1 h2
    exact ⟨h1, h2⟩
  | cons ch cs ih =>
    intro st h1 h2
    rw [runChunks]
    split
    case h_1 e tbl heq => exact ⟨h1, h2⟩
    case h_2 st2 heq =>
      obtain ⟨pct, hpct, hproc, hsnap⟩ := processChunk_ok now cols _ st ch st2 heq
      have hpct2 : pct = ((min (st2.processed * 100 / n) 100 : Nat) : Int) := by
        rw [computePercent_coe st2.processed n hn] at hpct
        injection hpct with h
        exact h.symm
      have hle : st.processed ≤ st2.processed := by omega
      have hbound : ∀ q ∈ snapshotPercents st.snapshots,
          q ≤ ((min (st2.processed * 100 / n) 100 : Nat) : Int) := by
        intro q hq
        refine (h2 q hq).trans ?_
        exact_mod_cast pct_mono hle
      apply ih st2
      · rw [hsnap, snapshotPercents_append]
        rw [List.chain'_append]
        refine ⟨h1, by simp, ?_⟩
        intro x hx y hy
        simp only [snapshotPercents_progress, snapshotPercents_nil,
          List.head?, Option.mem_def, Option.some.injEq] at hy
        subst hy
        rw [hpct2]
        exact hbound x (List.mem_of_mem_getLast? hx)
      · intro q hq
        rw [hsnap, snapshotPercents_append] at hq
        rcases List.mem_append.1 hq with hq2 | hq2
        · exact hbound q hq2
        · simp only [snapshotPercents_progress, snapshotPercents_nil,
            List.mem_singleton] at hq2
          subst hq2
          rw [hpct2]


/-! Claim theorems. -/

/-- C1: For every progress publication of an import job, the published percent
equals floor(processed / total × 100) clamped to [0, 100] (the published
total is the discovered total row count, which is positive whenever a
progress snapshot exists), and when the discovered total row count is 0 no
per-chunk percent is ever published and the computation does not fail — the
job reaches its terminal success state. -/
theorem c1_progress_percent (now : Nat) (f : CsvFile) (table0 : List Product) :
    (∀ c tt p m, Snapshot.progress c tt p m ∈
        (import_products_task now f table0).snapshots →
      tt = totalRows f ∧ 0 < tt ∧
      p = min ((c * 100 : Int) / tt) 100 ∧ 0 ≤ p ∧ p ≤ 100) ∧
    (f.present = true → totalRows f = 0 →
      progressPercents (import_products_task now f table0) = [] ∧
      ∃ r, (import_products_task now f table0).result = Except.ok r) := by
  rcases hpres : f.present with _ | _
  · constructor
    · intro c tt p m hmem
      simp [import_products_task, hpres] at hmem
    · intro habs
      exact absurd habs (by simp)
  · by_cases hcolsP : f.columns.isEmpty = true
    · constructor
      · intro c tt p m hmem
        simp [import_products_task, hpres, hcolsP] at hmem
      · intro _ h0
        exfalso
        rw [totalRows, lineCount, if_pos hcolsP] at h0
        omega
    · have hcols : f.columns.isEmpty = false := by simpa using hcolsP
      have ht : totalRows f = (f.records.length : Int) := totalRows_of_columns f hcols
      constructor
      · intro c tt p m hmem
        rw [import_products_task] at hmem
        simp only [hpres, Bool.true_eq_false, if_false, hcols, Bool.false_eq_true] at hmem
        rcases hrun : runChunks now f.columns (totalRows f)
            { processed := 0, inserted := 0, table := table0, snapshots := [] }
            (chunksOf chunkSize f.records) with ⟨st, oe⟩
        rw [hrun] at hmem
        have hmem2 : Snapshot.progress c tt p m ∈ st.snapshots := by
          rcases oe with _ | e
          · exact hmem
          · rcases List.mem_append.1 hmem with h2 | h2
            · exact h2
            · simp at h2
        have hbase : Snapshot.progress c tt p m ∈
            (runChunks now f.columns (totalRows f)
              { processed := 0, inserted := 0, table := table0, snapshots := [] }
              (chunksOf chunkSize f.records)).1.snapshots := by
          rw [hrun]
          exact hmem2
        obtain ⟨htt, hcp⟩ := runChunks_progress_mem now f.columns (totalRows f)
          (chunksOf chunkSize f.records)
          { processed := 0, inserted := 0, table := table0, snapshots := [] }
          (by intro c2 tt2 p2 m2 h2; simp at h2) c tt p m hbase
        subst htt
        have htne : totalRows f ≠ 0 := by
          intro h0
          rw [computePercent, if_pos h0] at hcp
          exact absurd hcp (by simp)
        have htpos : 0 < totalRows f := by
          rw [ht] at htne ⊢
          have h0 : 0 ≤ (f.records.length : Int) := by positivity
          omega
        rw [computePercent, if_neg htne] at hcp
        injection hcp with hcp
        refine ⟨rfl, htpos, hcp.symm, ?_, ?_⟩
        · rw [← hcp]
          refine le_min ?_ (by norm_num)
          exact Int.ediv_nonneg (by positivity) htpos.le
        · rw [← hcp]
          exact min_le_right _ _
      · intro _ h0
        have hlen : f.records.length = 0 := by
          rw [ht] at h0
          exact_mod_cast h0
        have hrecs : f.records = [] := List.length_eq_zero.1 hlen
        rw [import_products_task]
        simp only [hpres, Bool.true_eq_false, if_false, hcols, Bool.false_eq_true, hrecs]
        exact ⟨rfl, _, rfl⟩

/-- Witness for C1: in the one-record run the published snapshot is
progress 1 1 100 and satisfies the percent formula; in the header-only run
the discovered total is 0, no progress snapshot is published and the job
still succeeds. -/
theorem c1_progress_percent_witness :
    ((1 : Int) = totalRows nullDescFile ∧ 0 < (1 : Int) ∧
      (100 : Int) = min ((1 * 100 : Int) / 1) 100 ∧ (0 : Int) ≤ 100 ∧
      (100 : Int) ≤ 100) ∧
    (progressPercents (import_products_task 5 headerOnly []) = [] ∧
      ∃ r, (import_products_task 5 headerOnly []).result = Except.ok r) :=
  ⟨(c1_progress_percent 5 nullDescFile []).1 1 1 100
      "Processing... 1/1 rows" (by decide),
    (c1_progress_percent 5 headerOnly []).2 (by decide) (by decide)⟩


theorem run_percents_chain_le (now : Nat) (f : CsvFile) (table0 : List Product) :
    List.Chain' (· ≤ ·) (progressPercents (import_products_task now f table0)) ∧
    ∀ q ∈ progressPercents (import_products_task now f table0), q ≤ 100 := by
  rcases hpres : f.present with _ | _
  · constructor
    · simp [import_products_task, hpres, progressPercents]
    · simp [import_products_task, hpres, progressPercents]
  · by_cases hcolsP : f.columns.isEmpty = true
    · constructor
      · simp [import_products_task, hpres, hcolsP, progressPercents]
      · simp [import_products_task, hpres, hcolsP, progressPercents]
    · have hcols : f.columns.isEmpty = false := by simpa using hcolsP
      have ht : totalRows f = (f.records.length : Int) := totalRows_of_columns f hcols
      rcases hrecs : f.records with _ | ⟨a, l⟩
      · constructor
        · simp [import_products_task, hpres, hcols, hrecs, progressPercents,
            chunksOf, chunksOfAux, runChunks]
        · simp [import_products_task, hpres, hcols, hrecs, progressPercents,
            chunksOf, chunksOfAux, runChunks]
      · have hn : 0 < f.records.length := by rw [hrecs]; simp
        obtain ⟨hchain, hbound⟩ := runChunks_percents_chain now f.columns
          f.records.length hn (chunksOf chunkSize f.records)
          { processed := 0, inserted := 0, table := table0, snapshots := [] }
          (by simp) (by simp)
        rw [← ht] at hchain hbound
        have hpp : progressPercents (import_products_task now f table0) =
            snapshotPercents (runChunks now f.columns (totalRows f)
              { processed := 0, inserted := 0, table := table0, snapshots := [] }
              (chunksOf chunkSize f.records)).1.snapshots := by
          rw [import_products_task]
          simp only [hpres, Bool.true_eq_false, if_false, hcols, Bool.false_eq_true]
          rcases hrun : runChunks now f.columns (totalRows f)
              { processed := 0, inserted := 0, table := table0, snapshots := [] }
              (chunksOf chunkSize f.records) with ⟨st, oe⟩
          rcases oe with _ | e
          · rfl
          · simp [progressPercents, snapshotPercents_append]
        rw [hpp]
        refine ⟨hchain, ?_⟩
        intro q hq
        refine (hbound q hq).trans ?_
        exact_mod_cast min_le_right _ 100

/-- C7: for every import job the percents of the successive PROGRESS
snapshots form a monotonically non-decreasing sequence, which stays
monotone when the terminal percent the streaming handler emits is appended,
and the percent observed at the succeeded terminal state is exactly 100. -/
theorem c7_percent_monotone (now : Nat) (f : CsvFile) (table0 : List Product) :
    List.Chain' (· ≤ ·)
      (progressPercents (import_products_task now f table0) ++
        (terminalPercent (import_products_task now f table0)).toList) ∧
    ((import_products_task now f table0).result.isOk = true →
      terminalPercent (import_products_task now f table0) = some 100) := by
  obtain ⟨hchain, hbound⟩ := run_percents_chain_le now f table0
  constructor
  · rcases hres : (import_products_task now f table0).result with e | r
    · rw [terminalPercent, hres]
      simpa using hchain
    · rw [terminalPercent, hres]
      rw [List.chain'_append]
      refine ⟨hchain, by simp, ?_⟩
      intro x hx y hy
      simp only [Option.toList_some, List.head?, Option.mem_def,
        Option.some.injEq] at hy
      subst hy
      exact hbound x (List.mem_of_mem_getLast? hx)
  · intro hok
    rcases hres : (import_products_task now f table0).result with e | r
    · rw [hres] at hok
      simp [Except.isOk, Except.toBool] at hok
    · rw [terminalPercent, hres]

/-- Witness for C7: the one-record run succeeds, its percent sequence with
the terminal 100 appended is monotone, and the terminal percent is 100. -/
theorem c7_percent_monotone_witness :
    List.Chain' (· ≤ ·)
      (progressPercents (import_products_task 5 nullDescFile []) ++
        (terminalPercent (import_products_task 5 nullDescFile [])).toList) ∧
    terminalPercent (import_products_task 5 nullDescFile []) = some 100 :=
  ⟨(c7_percent_monotone 5 nullDescFile []).1,
    (c7_percent_monotone 5 nullDescFile []).2 (by decide)⟩


/-- C9: for a missing source file, and likewise for an empty (zero-byte)
source file, the job transitions directly to failed with the underlying
error recorded in the terminal snapshot, no progress published, the table
untouched and zero rows processed. -/
theorem c9_entry_validation (now : Nat) (f : CsvFile) (table0 : List Product) :
    (f.present = false →
      (import_products_task now f table0).result = Except.error "File not found" ∧
      (import_products_task now f table0).table = table0 ∧
      progressPercents (import_products_task now f table0) = [] ∧
      (import_products_task now f table0).snapshots =
        [Snapshot.failure "File not found" "Import failed"]) ∧
    (f.present = true → f.columns.isEmpty = true →
      (import_products_task now f table0).result =
        Except.error "EmptyDataError: No columns to parse from file" ∧
      (import_products_task now f table0).table = table0 ∧
      progressPercents (import_products_task now f table0) = [] ∧
      (import_products_task now f table0).snapshots =
        [Snapshot.failure "EmptyDataError: No columns to parse from file"
          "Import failed"]) := by
  constructor
  · intro hp
    simp [import_products_task, hp, progressPercents]
  · intro hp hc
    simp [import_products_task, hp, hc, progressPercents]

/-- Witness for C9: the missing-file run and the zero-byte-file run both end
failed with the error recorded, the table untouched and no progress. -/
theorem c9_entry_validation_witness :
    ((import_products_task 5 absentFile []).result =
        Except.error "File not found" ∧
      (import_products_task 5 absentFile []).table = [] ∧
      progressPercents (import_products_task 5 absentFile []) = [] ∧
      (import_products_task 5 absentFile []).snapshots =
        [Snapshot.failure "File not found" "Import failed"]) ∧
    ((import_products_task 5 emptyFile []).result =
        Except.error "EmptyDataError: No columns to parse from file" ∧
      (import_products_task 5 emptyFile []).table = [] ∧
      progressPercents (import_products_task 5 emptyFile []) = [] ∧
      (import_products_task 5 emptyFile []).snapshots =
        [Snapshot.failure "EmptyDataError: No columns to parse from file"
          "Import failed"]) :=
  ⟨(c9_entry_validation 5 absentFile []).1 rfl,
    (c9_entry_validation 5 emptyFile []).2 rfl rfl⟩

/-- C10 (amended): a parseable file whose header lacks a sku column and
holds at least one data record fails on the first chunk — SKU normalization
is skipped, but the duplicate drop raises KeyError before any storage
transaction is opened — so no batch is committed (the table is untouched),
no progress is published, and the job ends failed.  A header-only file
without a sku column is the exception: it yields zero chunks, nothing
raises, and the job ends succeeded (see the counterexample). -/
theorem c10_missing_sku (now : Nat) (f : CsvFile) (table0 : List Product)
    (hp : f.present = true) (hc : f.columns.isEmpty = false)
    (hsku : "sku" ∉ f.columns) (hrec : f.records ≠ []) :
    (import_products_task now f table0).result = Except.error "KeyError: sku" ∧
    (import_products_task now f table0).table = table0 ∧
    progressPercents (import_products_task now f table0) = [] ∧
    (import_products_task now f table0).snapshots =
      [Snapshot.failure "KeyError: sku" "Import failed"] := by
  rcases hrecs : f.records with _ | ⟨a, l⟩
  · exact absurd hrecs hrec
  · rw [import_products_task]
    simp only [hp, Bool.true_eq_false, if_false, hc, Bool.false_eq_true, hrecs]
    rw [show chunksOf chunkSize (a :: l) =
      (a :: l.take (chunkSize - 1)) :: chunksOfAux chunkSize l.length
        (l.drop (chunkSize - 1)) from rfl]
    rw [runChunks, processChunk]
    rw [if_neg hsku]
    simp [progressPercents]

/-- Witness for C10: the one-record file without a sku column fails with
KeyError, commits nothing and publishes no progress. -/
theorem c10_missing_sku_witness :
    (import_products_task 5 noSkuFile tblLower).result =
        Except.error "KeyError: sku" ∧
      (import_products_task 5 noSkuFile tblLower).table = tblLower ∧
      progressPercents (import_products_task 5 noSkuFile tblLower) = [] ∧
      (import_products_task 5 noSkuFile tblLower).snapshots =
        [Snapshot.failure "KeyError: sku" "Import failed"] :=
  c10_missing_sku 5 noSkuFile tblLower rfl (by decide) (by decide) (by decide)

/-- Counterexample for C10 as stated: an otherwise parseable file whose
header lacks the sku column but holds no data rows does NOT end in the
failed state — the chunked reader yields zero chunks, the duplicate-drop
line is never reached, nothing raises, and the job ends succeeded with zero
rows processed and no snapshot published. -/
theorem c10_headeronly_counterexample :
    noSkuHeaderOnly.present = true ∧
    ("sku" ∈ noSkuHeaderOnly.columns → False) ∧
    noSkuHeaderOnly.records = [] ∧
    (import_products_task 5 noSkuHeaderOnly tblLower).result =
      Except.ok { status := "success", total_processed := 0,
                  total_inserted := 0,
                  message := "Successfully imported 0 products" } ∧
    (import_products_task 5 noSkuHeaderOnly tblLower).snapshots = [] ∧
    (import_products_task 5 noSkuHeaderOnly tblLower).table = tblLower := by
  decide


/-- C3 (amended): the Row Normalizer does coerce a missing/null field to the
empty string, but the staging load declares the empty string as the COPY
null marker, so what reaches the merge for such a field is SQL NULL — for
the nullable columns (description, price) that NULL is what gets stored,
not the empty string, while for the NOT NULL name column the merge aborts
with a constraint violation instead of storing anything. -/
theorem c3_null_coercion (r : RawRow) (b : Bool) :
    (r.description = none →
      (fillRow r).description = "" ∧
      (stageRow (normalizeRow b r)).description = none) ∧
    (r.price = none →
      (fillRow r).price = "" ∧
      (stageRow (normalizeRow b r)).price = none) ∧
    (r.name = none →
      (fillRow r).name = "" ∧
      ∀ (now : Nat) (table : List Product) (t2 : List Product),
        upsertRow now table (stageRow (normalizeRow b r)) ≠ Except.ok t2) := by
  refine ⟨?_, ?_, ?_⟩
  · intro h
    constructor
    · simp [fillRow, fillCell, h]
    · rcases b <;>
        simp [stageRow, stageCell, normalizeRow, fillRow, fillCell, h]
  · intro h
    constructor
    · simp [fillRow, fillCell, h]
    · rcases b <;>
        simp [stageRow, stageCell, normalizeRow, fillRow, fillCell, h]
  · intro h
    have hname : (stageRow (normalizeRow b r)).name = none := by
      rcases b <;>
        simp [stageRow, stageCell, normalizeRow, fillRow, fillCell, h]
    refine ⟨by simp [fillRow, fillCell, h], ?_⟩
    intro now table t2
    rcases hsku : (stageRow (normalizeRow b r)).sku with _ | k
    · simp [upsertRow, hsku]
    · simp [upsertRow, hsku, hname]

/-- Witness for C3 (amended): a record missing description, price and name
is filled to empty strings; description and price stage as SQL NULL, and
the merge of the record aborts with NotNullViolation on the name column. -/
theorem c3_null_coercion_witness :
    ((fillRow rawAllNull).description = "" ∧
      (stageRow (normalizeRow true rawAllNull)).description = none) ∧
    ((fillRow rawAllNull).price = "" ∧
      (stageRow (normalizeRow true rawAllNull)).price = none) ∧
    ((fillRow rawAllNull).name = "" ∧
      upsertRow 5 [] (stageRow (normalizeRow true rawAllNull)) =
        Except.error "NotNullViolation: null value in column name") := by
  obtain ⟨h1, h2, h3⟩ := c3_null_coercion rawAllNull true
  exact ⟨h1 rfl, h2 rfl, (h3 rfl).1, by decide⟩

/-- Counterexample for C3 as stated: importing a record whose description is
missing stores SQL NULL (none) for that field, not the empty string — the
final table row has description none, and the stored description list is not
[some ""]. -/
theorem c3_empty_string_counterexample :
    (fillRow { sku := some "a", name := some "N", description := none,
               price := some "1" }).description = "" ∧
    (import_products_task 5 nullDescFile []).table =
      [{ sku := "A", name := "N", description := none, price := some "1",
         is_active := true, created_at := 5, updated_at := none }] ∧
    ¬ (import_products_task 5 nullDescFile []).table.map
        (fun p => p.description) = [some ""] := by
  decide

/-- C4: for a staged record the merge actually processes (non-NULL sku and
name — a NULL in either column aborts the whole batch on the NOT NULL
constraints of models.py lines 9-10 instead of merging): when it collides
exactly on sku, the merge overwrites only name, description, price and the
update timestamp of the colliding row (sku, creation timestamp and active
flag are untouched, other rows are unchanged); when nothing collides even
case-insensitively, a fresh row is appended with active = true, creation
timestamp = now and no update timestamp. -/
theorem c4_merge_frame (now : Nat) (table : List Product) (r : StagedRow)
    (k nm : String) (hk : r.sku = some k) (hn : r.name = some nm) :
    ((∃ p ∈ table, p.sku = k) →
      ∃ fn, upsertRow now table r = .ok (table.map fn) ∧
        ∀ p, (p.sku = k →
            (fn p).sku = p.sku ∧ (fn p).created_at = p.created_at ∧
            (fn p).is_active = p.is_active ∧ (fn p).name = nm ∧
            (fn p).description = r.description ∧ (fn p).price = r.price ∧
            (fn p).updated_at = some now) ∧
          (p.sku ≠ k → fn p = p)) ∧
    ((∀ p ∈ table, strUpper p.sku ≠ strUpper k) →
      upsertRow now table r =
        .ok (table ++ [{ sku := k, name := nm, description := r.description,
                         price := r.price, is_active := true, created_at := now,
                         updated_at := none }])) := by
  constructor
  · intro hex
    simp only [upsertRow, hk, hn]
    rw [if_pos hex]
    refine ⟨_, rfl, ?_⟩
    intro p
    constructor
    · intro hpk
      simp [if_pos hpk]
    · intro hpk
      simp [if_neg hpk]
  · intro hall
    have hex : ¬ ∃ p ∈ table, p.sku = k := by
      rintro ⟨p, hp, hpk⟩
      exact hall p hp (by rw [hpk])
    have hex2 : ¬ ∃ p ∈ table, strUpper p.sku = strUpper k := by
      rintro ⟨p, hp, hpk⟩
      exact hall p hp hpk
    simp only [upsertRow, hk, hn]
    rw [if_neg hex, if_neg hex2]

/-- Witness for C4: merging a colliding record into `tblFrame` refreshes
name, description, price, updated_at while keeping is_active = false and
created_at = 3; merging a non-colliding record appends a fresh active row
created at now = 9. -/
theorem c4_merge_frame_witness :
    upsertRow 9 tblFrame rowHit =
      .ok [{ sku := "A", name := "n1", description := some "d1",
             price := some "p1", is_active := false, created_at := 3,
             updated_at := some 9 }] ∧
    upsertRow 9 tblFrame rowFresh =
      .ok (tblFrame ++ [{ sku := "B", name := "n2", description := none,
                          price := some "p2", is_active := true,
                          created_at := 9, updated_at := none }]) := by
  refine ⟨by decide,
    (c4_merge_frame 9 tblFrame rowFresh "B" "n2" rfl rfl).2 (by decide)⟩

/-- C5 (amended): the importer matches SKUs by normalizing the imported key
(upper-case, trimmed) and comparing it exactly against the stored key, so a
pre-existing row whose stored SKU is already canonical is updated in place —
no second row is created — by any import whose SKU has the same canonical
form; a pre-existing row stored in non-canonical form is not matched (see
the counterexample, where the import errors instead).  Stated for imported
rows whose name survives staging as non-NULL — a row whose missing/empty
name stages as SQL NULL aborts the merge on the products.name NOT NULL
constraint instead of updating anything. -/
theorem c5_canonical_match_updates (now : Nat) (table : List Product)
    (p : Product) (hp : p ∈ table) (raw : RawRow) (s : String)
    (hs : raw.sku = some s) (hcanon : normalizeSku s = p.sku)
    (hne : p.sku ≠ "") (hnm : fillCell raw.name ≠ "") :
    ∃ fn, upsertRow now table (stageRow (normalizeRow true raw)) =
        Except.ok (table.map fn) ∧
      fn p = { p with name := fillCell raw.name,
                      description := (stageRow (normalizeRow true raw)).description,
                      price := (stageRow (normalizeRow true raw)).price,
                      updated_at := some now } ∧
      (∀ q, q.sku ≠ p.sku → fn q = q) ∧
      (table.map fn).length = table.length := by
  have hk : (stageRow (normalizeRow true raw)).sku = some p.sku := by
    simp [stageRow, normalizeRow, fillRow, fillCell, hs, hcanon, stageCell, hne]
  have hname : (stageRow (normalizeRow true raw)).name =
      some (fillCell raw.name) := by
    simp [stageRow, normalizeRow, fillRow, stageCell, hnm]
  simp only [upsertRow, hk, hname]
  rw [if_pos ⟨p, hp, rfl⟩]
  refine ⟨_, rfl, ?_, ?_, List.length_map _ _⟩
  · simp
  · intro q hq
    simp [if_neg hq]

/-- Witness for C5 (amended): importing " abc-1 " against the canonical row
"ABC-1" updates that row in place. -/
theorem c5_canonical_match_updates_witness :
    upsertRow 7 tblCanon (stageRow (normalizeRow true raw5)) =
      Except.ok [{ sku := "ABC-1", name := "N2", description := some "D2",
                   price := some "2", is_active := true, created_at := 0,
                   updated_at := some 7 }] := by
  obtain ⟨fn, heq, hfp, hother, hlen⟩ :=
    c5_canonical_match_updates 7 tblCanon
      { sku := "ABC-1", name := "old", description := none, price := none,
        is_active := true, created_at := 0, updated_at := none }
      (by decide) raw5 " abc-1 " rfl (by decide) (by decide) (by decide)
  decide

/-- Counterexample for C5 as stated: the stored row "abc-1" (created by the
CRUD layer, which keeps SKUs verbatim) and the imported SKU " abc-1 " share
the same canonical form, yet the import does not update that one logical
product: the exact-match merge misses it, the insert trips the
case-insensitive unique index, the job fails and the table is unchanged. -/
theorem c5_case_counterexample :
    normalizeSku " abc-1 " = strUpper "abc-1" ∧
    (import_products_task 7 caseFile tblLower).result =
      Except.error
        "UniqueViolation: duplicate key value violates unique index idx_sku_upper" ∧
    (import_products_task 7 caseFile tblLower).table = tblLower := by
  decide


theorem dropDup_sublist : ∀ rows : List FilledRow,
    (dropDupKeepLast rows).Sublist rows := by
  intro rows
  induction rows with
  | nil => simp [dropDupKeepLast]
  | cons r rs ih =>
    rw [dropDupKeepLast]
    split
    · exact ih.cons r
    · exact ih.cons₂ r

theorem dropDup_filter_eq (k : String) :
    ∀ rows : List FilledRow,
      (dropDupKeepLast rows).filter (fun r => r.sku == k) =
        ((rows.filter (fun r => r.sku == k)).getLast?).toList := by
  intro rows
  induction rows with
  | nil => rfl
  | cons r rs ih =>
    rw [dropDupKeepLast]
    split
    case isTrue hdup =>
      rw [List.filter_cons]
      by_cases hrk : r.sku = k
      · obtain ⟨r2, hr2, hr2k⟩ := hdup
        have hmem : r2 ∈ rs.filter (fun r => r.sku == k) := by
          rw [List.mem_filter]
          exact ⟨hr2, by simp [hr2k, hrk]⟩
        rcases hflt : rs.filter (fun r => r.sku == k) with _ | ⟨c, cs⟩
        · rw [hflt] at hmem
          simp at hmem
        · simp only [hrk, beq_self_eq_true, if_true]
          rw [hflt, List.getLast?_cons_cons, ih, hflt]
      · simp only [beq_eq_false_iff_ne.2 hrk, Bool.false_eq_true, if_false]
        exact ih
    case isFalse hdup =>
      rw [List.filter_cons, List.filter_cons]
      by_cases hrk : r.sku = k
      · have hnil : rs.filter (fun r => r.sku == k) = [] := by
          rw [List.filter_eq_nil_iff]
          intro r2 hr2
          simp only [beq_iff_eq]
          intro hr2k
          exact hdup ⟨r2, hr2, by rw [hr2k, hrk]⟩
        have hnil2 : (dropDupKeepLast rs).filter (fun r => r.sku == k) = [] :=
          List.sublist_nil.1 (hnil ▸ (dropDup_sublist rs).filter _)
        simp only [hrk, beq_self_eq_true, if_true]
        rw [hnil, hnil2]
        rfl
      · simp only [beq_eq_false_iff_ne.2 hrk, Bool.false_eq_true, if_false]
        exact ih

/-- C6 (amended): within a batch only the last occurrence (by original row
order) of each canonical SKU is retained — the deduplicated batch is an
order-preserving sublist whose records with key k are exactly the last
original record with key k — and the processed counter advances only by the
retained count: dropped rows are excluded from the processed totals and no
separate dropped-row count is kept or reported. -/
theorem c6_keep_last (rows : List FilledRow) (k : String)
    (now : Nat) (cols : List String) (t : Int) (st st2 : RunState)
    (chunk : List RawRow)
    (hok : processChunk now cols t st chunk = .ok st2) :
    (dropDupKeepLast rows).Sublist rows ∧
    (dropDupKeepLast rows).filter (fun r => r.sku == k) =
      ((rows.filter (fun r => r.sku == k)).getLast?).toList ∧
    st2.processed = st.processed +
      (dropDupKeepLast (chunk.map (normalizeRow true))).length := by
  refine ⟨dropDup_sublist rows, dropDup_filter_eq k rows, ?_⟩
  obtain ⟨pct, _, hproc, _⟩ := processChunk_ok now cols t st chunk st2 hok
  exact hproc

/-- Witness for C6 (amended): in the three-record chunk with a duplicated
SKU "X", the retained records are the sublist keeping the last "X", and the
chunk advances the processed counter by 2 (the retained count). -/
theorem c6_keep_last_witness :
    (dropDupKeepLast (dupFile.records.map (normalizeRow true))).Sublist
        (dupFile.records.map (normalizeRow true)) ∧
    (dropDupKeepLast (dupFile.records.map (normalizeRow true))).filter
        (fun r => r.sku == "X") =
      (((dupFile.records.map (normalizeRow true)).filter
          (fun r => r.sku == "X")).getLast?).toList ∧
    (({ processed := 2, inserted := 2,
        table := [{ sku := "Y", name := "n2", description := none,
                    price := some "2", is_active := true, created_at := 5,
                    updated_at := none },
                  { sku := "X", name := "n3", description := none,
                    price := some "3", is_active := true, created_at := 5,
                    updated_at := none }],
        snapshots := [Snapshot.progress 2 3 66
          "Processing... 2/3 rows"] } : RunState)).processed =
      (({ processed := 0, inserted := 0, table := [],
          snapshots := [] } : RunState)).processed +
        (dropDupKeepLast (dupFile.records.map (normalizeRow true))).length :=
  c6_keep_last (dupFile.records.map (normalizeRow true)) "X" 5 colsFull 3
    _ _ dupFile.records (by decide)

/-- Counterexample for C6 as stated: the three-record file with one
intra-chunk duplicate reports processed = 2 everywhere (snapshot and result)
while 3 rows were read; the one dropped row is not counted — no field of the
published snapshot or of the import result carries a dropped-row count, and
the processed totals simply omit the drop. -/
theorem c6_drop_count_counterexample :
    dupFile.records.length = 3 ∧
    (import_products_task 5 dupFile []).snapshots =
      [Snapshot.progress 2 3 66 "Processing... 2/3 rows"] ∧
    (import_products_task 5 dupFile []).result =
      Except.ok { status := "success", total_processed := 2,
                  total_inserted := 2,
                  message := "Successfully imported 2 products" } := by
  decide

/-- C8 (amended): the Notification Dispatcher is invoked exactly once, with
the aggregate payload, when and only when the job succeeds; a failed job
enqueues no webhook event and hence no outbound delivery is attempted for
any subscriber list. -/
theorem c8_notify_on_success_only (now : Nat) (f : CsvFile)
    (table0 : List Product) (subs : List Webhook) :
    (∀ r, (import_products_task now f table0).result = Except.ok r →
      (import_products_task now f table0).webhookEvents =
        [("product.bulk_import", r.total_processed, r.total_inserted)]) ∧
    (∀ e, (import_products_task now f table0).result = Except.error e →
      (import_products_task now f table0).webhookEvents = [] ∧
      notificationsSent subs (import_products_task now f table0) = []) := by
  rcases hpres : f.present with _ | _
  · constructor
    · intro r hr
      simp [import_products_task, hpres] at hr
    · intro e he
      simp [import_products_task, hpres, notificationsSent]
  · by_cases hcolsP : f.columns.isEmpty = true
    · constructor
      · intro r hr
        simp [import_products_task, hpres, hcolsP] at hr
      · intro e he
        simp [import_products_task, hpres, hcolsP, notificationsSent]
    · have hcols : f.columns.isEmpty = false := by simpa using hcolsP
      rw [import_products_task]
      simp only [hpres, Bool.true_eq_false, if_false, hcols, Bool.false_eq_true]
      rcases hrun : runChunks now f.columns (totalRows f)
          { processed := 0, inserted := 0, table := table0, snapshots := [] }
          (chunksOf chunkSize f.records) with ⟨st, oe⟩
      rcases oe with _ | e2
      · constructor
        · intro r hr
          simp only [Except.ok.injEq] at hr
          subst hr
          rfl
        · intro e he
          exact absurd he (by simp)
      · constructor
        · intro r hr
          simp at hr
        · intro e he
          exact ⟨rfl, rfl⟩

/-- Witness for C8 (amended): the successful one-record run enqueues exactly
one bulk-import event with its aggregate counts; the failed missing-file run
enqueues none, and no delivery is attempted to the active matching
subscriber. -/
theorem c8_notify_on_success_only_witness :
    (import_products_task 5 nullDescFile []).webhookEvents =
      [("product.bulk_import", 1, 1)] ∧
    (import_products_task 5 absentFile []).webhookEvents = [] ∧
    notificationsSent subsActive (import_products_task 5 absentFile []) = [] := by
  refine ⟨?_, ?_, ?_⟩
  · exact (c8_notify_on_success_only 5 nullDescFile [] subsActive).1
      { status := "success", total_processed := 1, total_inserted := 1,
        message := "Successfully imported 1 products" } (by decide)
  · exact ((c8_notify_on_success_only 5 absentFile [] subsActive).2
      "File not found" (by decide)).1
  · exact ((c8_notify_on_success_only 5 absentFile [] subsActive).2
      "File not found" (by decide)).2

/-- Counterexample for C8 as stated: a job that transitions to failed
triggers no outbound notification at all, even though an active subscriber
matching the bulk-import event exists (it would receive a delivery if the
dispatcher ran); the dispatcher is invoked only on the success path
(tasks.py line 135), never from the except block (lines 150-156). -/
theorem c8_failure_counterexample :
    (import_products_task 5 absentFile tblLower).result =
      Except.error "File not found" ∧
    notificationsSent subsActive (import_products_task 5 absentFile tblLower) =
      [] ∧
    triggerWebhooks subsActive "product.bulk_import" =
      ["http://example.com/hook"] := by
  decide


theorem chunksOfAux_congr (n : Nat) :
    ∀ (fuel1 fuel2 : Nat) (l : List α), l.length ≤ fuel1 → l.length ≤ fuel2 →
      chunksOfAux n fuel1 l = chunksOfAux n fuel2 l := by
  intro fuel1
  induction fuel1 with
  | zero =>
    intro fuel2 l h1 h2
    have hl : l = [] := List.eq_nil_of_length_eq_zero (Nat.le_zero.1 h1)
    subst hl
    cases fuel2 <;> rfl
  | succ f1 ih =>
    intro fuel2 l h1 h2
    rcases l with _ | ⟨a, l2⟩
    · cases fuel2 <;> rfl
    · rcases fuel2 with _ | f2
      · simp at h2
      · simp only [chunksOfAux]
        congr 1
        apply ih
        · rw [List.length_drop]
          simp only [List.length_cons] at h1
          omega
        · rw [List.length_drop]
          simp only [List.length_cons] at h2
          omega

theorem chunksOf_cons (n : Nat) (a : α) (l : List α) :
    chunksOf n (a :: l) =
      (a :: l.take (n - 1)) :: chunksOf n (l.drop (n - 1)) := by
  rw [chunksOf, chunksOf, List.length_cons]
  simp only [chunksOfAux]
  congr 1
  apply chunksOfAux_congr
  · rw [List.length_drop]
    omega
  · exact le_rfl

theorem dropDup_replicate (r : FilledRow) :
    ∀ n, dropDupKeepLast (List.replicate (n + 1) r) = [r] := by
  intro n
  induction n with
  | zero => simp [dropDupKeepLast]
  | succ m ih =>
    have hex : ∃ r2 ∈ List.replicate (m + 1) r, r2.sku = r.sku :=
      ⟨r, by simp [List.mem_replicate], rfl⟩
    rw [List.replicate_succ, dropDupKeepLast, if_pos hex]
    exact ih

theorem import_outcome_shape (now : Nat) (f : CsvFile) (table0 : List Product) :
    (∃ e, (import_products_task now f table0).result = Except.error e ∧
      (import_products_task now f table0).snapshots.getLast? =
        some (Snapshot.failure e "Import failed")) ∨
    ((import_products_task now f table0).result.isOk = true) := by
  rcases hpres : f.present with _ | _
  · left
    exact ⟨"File not found", by simp [import_products_task, hpres],
      by simp [import_products_task, hpres]⟩
  · by_cases hcolsP : f.columns.isEmpty = true
    · left
      exact ⟨"EmptyDataError: No columns to parse from file",
        by simp [import_products_task, hpres, hcolsP],
        by simp [import_products_task, hpres, hcolsP]⟩
    · have hcols : f.columns.isEmpty = false := by simpa using hcolsP
      rw [import_products_task]
      simp only [hpres, Bool.true_eq_false, if_false, hcols, Bool.false_eq_true]
      split
      next st e heq =>
        left
        exact ⟨e, rfl, List.getLast?_concat _⟩
      next st heq =>
        right
        rfl

/-- C2 (amended): for every failing run, the terminal snapshot is a FAILURE
snapshot carrying exactly the error detail and the status string "Import
failed" — by the shape of the FAILURE meta it includes neither the processed
row count nor a percent, and it replaces the last progress snapshot as the
latest publication for the job id (previously committed batches do remain in
the table, as the counterexample shows concretely). -/
theorem c2_terminal_failure (now : Nat) (f : CsvFile)
    (table0 : List Product) (e : String)
    (he : (import_products_task now f table0).result = Except.error e) :
    (import_products_task now f table0).snapshots.getLast? =
      some (Snapshot.failure e "Import failed") := by
  rcases import_outcome_shape now f table0 with ⟨e2, he2, hl⟩ | hok
  · have h2 : Except.error (ε := String) (α := ImportResult) e2 =
        Except.error e := he2.symm.trans he
    injection h2 with h
    subst h
    exact hl
  · rw [he] at hok
    simp [Except.isOk, Except.toBool] at hok

/-- Witness for C2 (amended): the missing-file run fails and its terminal
snapshot is the failure snapshot carrying only the error and status. -/
theorem c2_terminal_failure_witness :
    (import_products_task 5 absentFile []).snapshots.getLast? =
      some (Snapshot.failure "File not found" "Import failed") :=
  c2_terminal_failure 5 absentFile [] "File not found" (by decide)

/-- Counterexample for C2 as stated: a 10001-record import (two chunks)
commits its first batch (the table grows by the merged row, and a progress
snapshot with current = 1 was published), then fails on the second chunk;
the terminal snapshot is a FAILURE snapshot carrying only the error and a
status string — the previously processed count (1) and the last known
percent (0) are not carried in it, and the result exposes only the error. -/
theorem c2_failure_meta_counterexample :
    (import_products_task 9 bigFile tblLower).snapshots =
      [Snapshot.progress 1 10001 0 "Processing... 1/10001 rows",
       Snapshot.failure
         "UniqueViolation: duplicate key value violates unique index idx_sku_upper"
         "Import failed"] ∧
    (import_products_task 9 bigFile tblLower).result =
      Except.error
        "UniqueViolation: duplicate key value violates unique index idx_sku_upper" ∧
    (import_products_task 9 bigFile tblLower).table =
      tblLower ++ [{ sku := "A", name := "Name", description := some "D",
                     price := some "1.00", is_active := true, created_at := 9,
                     updated_at := none }] := by
  have hchunks : chunksOf chunkSize bigFile.records =
      [List.replicate 10000 rawA, [rawB]] := by
    show chunksOf chunkSize (List.replicate 10000 rawA ++ [rawB]) = _
    rw [show (10000 : Nat) = 9999 + 1 from rfl, List.replicate_succ,
      List.cons_append, chunksOf_cons]
    rw [show chunkSize - 1 = 9999 from rfl]
    rw [List.take_left' (List.length_replicate 9999 rawA),
      List.drop_left' (List.length_replicate 9999 rawA)]
    rfl
  have hpc1 : processChunk 9 colsFull 10001
      { processed := 0, inserted := 0, table := tblLower, snapshots := [] }
      (List.replicate 10000 rawA) = .ok
      { processed := 1, inserted := 1,
        table := tblLower ++
          [{ sku := "A", name := "Name", description := some "D",
             price := some "1.00", is_active := true, created_at := 9,
             updated_at := none }],
        snapshots := [Snapshot.progress 1 10001 0
          "Processing... 1/10001 rows"] } := by
    rw [processChunk, if_pos (show "sku" ∈ colsFull by decide)]
    dsimp only []
    rw [List.map_replicate]
    rw [show (10000 : Nat) = 9999 + 1 from rfl, dropDup_replicate]
    decide
  have hpc2 : processChunk 9 colsFull 10001
      { processed := 1, inserted := 1,
        table := tblLower ++
          [{ sku := "A", name := "Name", description := some "D",
             price := some "1.00", is_active := true, created_at := 9,
             updated_at := none }],
        snapshots := [Snapshot.progress 1 10001 0
          "Processing... 1/10001 rows"] } [rawB] = .error
      ("UniqueViolation: duplicate key value violates unique index idx_sku_upper",
        tblLower ++
          [{ sku := "A", name := "Name", description := some "D",
             price := some "1.00", is_active := true, created_at := 9,
             updated_at := none }]) := by
    decide
  have htotal : totalRows bigFile = 10001 := by
    rw [totalRows_of_columns bigFile (by decide)]
    norm_num [bigFile, List.length_append, List.length_replicate]
  rw [import_products_task]
  rw [if_neg (show ¬ bigFile.present = false by decide)]
  rw [if_neg (show ¬ bigFile.columns.isEmpty = true by decide)]
  rw [htotal]
  rw [show bigFile.columns = colsFull from rfl]
  rw [hchunks]
  simp only [runChunks, hpc1, hpc2]
  refine ⟨?_, ?_, ?_⟩ <;> first | rfl | trivial

end ProductImporter
